import Mathlib

/-
Verification of the orchestration core of the code-converter repository.

The development shallowly embeds the Python sources:
  - workflow.py            : ConversionState, the four LangGraph node functions,
                             should_retry, create_workflow, convert_with_workflow
  - parser_agent.py        : ParserAgent.parse
  - intent_extractor.py    : IntentExtractorAgent.extract_intents
  - Core Agents/validator_agent.py : ValidatorAgent.validate
  - CoreAgents/code_generator.py   : CodeGeneratorAgent.generate
  - API/api.py             : convert_code (the POST /convert handler)

Python exceptions raised by a stage are modelled by `Except String`; an
`Except.error e` value corresponds to an exception carrying message `e`
propagating out of the stage.  The LLM round trip made by each agent
(`self.llm.invoke(messages)`) is an opaque external capability: it is
modelled by a `Capability` record of deterministic functions from the
semantic inputs of each prompt to the textual response content (or an
exception).  The Python-stdlib step `json.loads`, together with the
markdown-fence cleanup each agent performs before it, is likewise external
to the repository's logic and is modelled by a `Decoder` record; a
`JSONDecodeError` exception caught by an agent corresponds to the decoder
returning `Except.error e` where `e` models `str(e)`.  The result
inspection each agent performs after a successful `json.loads` (dictionary
reads, `len()` calls, iteration and subscripting of the decoded value) is
repository code and is modelled explicitly: on an ill-shaped decoded value
it raises an `AttributeError`/`TypeError`/`KeyError` that is NOT caught by
the agent (only `json.JSONDecodeError` is), so it propagates to the
engine.

Wall-clock measurement and the fire-and-forget Elasticsearch telemetry
calls in workflow.py and api.py mutate no conversion state and are not
modelled.
-/

namespace CodeConverter

/-- Severity levels of a validation issue, per the validator's JSON schema
(`"severity": "critical|warning|info"`). -/
inductive Severity where
  | critical : Severity
  | warning : Severity
  | info : Severity
deriving DecidableEq, Repr

/-- One element of `validation_result["issues"]`, per the validator's JSON
schema. -/
structure Issue where
  kind : String
  severity : Severity
  description : String
  suggestion : String
deriving DecidableEq, Repr

/-- The typed view of the validation dictionary stored in the state and read
by `should_retry`.  `valid` models the truthiness of
`validation.get("valid", False)` and `issues` models
`validation.get("issues", [])` as iterated by `should_retry`; the remaining
fields mirror the other keys the validator emits.  It is computed from the
decoded JSON by `validationOfJson` below, after `ValidatorAgent.inspect`
has ruled out the shapes on which the source would raise. -/
structure ValidationResult where
  valid : Bool
  issues : List Issue
  overall_assessment : String
  raw_response : Option String
deriving DecidableEq, Repr

/-- Untyped JSON-shaped dictionaries threaded through the pipeline
(`parsed_structure` and `intent_graph` in workflow.py are plain `dict`s). -/
inductive Json where
  | null : Json
  | jbool : Bool → Json
  | jnum : Int → Json
  | str : String → Json
  | arr : List Json → Json
  | obj : List (String × Json) → Json

/-- Top-level keys of a JSON object, `[]` on non-objects. -/
def Json.keys : Json → List String
  | Json.obj fields => fields.map Prod.fst
  | _ => []

/-- Python `dict.get(key)` on the field list of a decoded JSON object
(`json.loads` produces unique keys). -/
def jsonLookup : List (String × Json) → String → Option Json
  | [], _ => none
  | kv :: rest, key => if kv.fst == key then some kv.snd else jsonLookup rest key

/-- Python `dict.get(key, default)`. -/
def jsonGetD (fields : List (String × Json)) (key : String) (dflt : Json) : Json :=
  (jsonLookup fields key).getD dflt

/-- Among JSON values, exactly strings, lists and dicts support Python
`len()` and iteration; numbers, booleans and `None` raise `TypeError` for
both. -/
def pySized : Json → Bool
  | Json.str _ => true
  | Json.arr _ => true
  | Json.obj _ => true
  | _ => false

/-- The elements Python iteration yields on a sized JSON value: the
characters of a string (as one-character strings), the elements of a list,
the keys of a dict. -/
def pyElems : Json → List Json
  | Json.str s => s.data.map (fun ch => Json.str (String.mk [ch]))
  | Json.arr l => l
  | Json.obj l => l.map (fun kv => Json.str kv.fst)
  | _ => []

/-- Python truthiness of a JSON value. -/
def pyTruthy : Json → Bool
  | Json.null => false
  | Json.jbool b => b
  | Json.jnum n => n != 0
  | Json.str s => !(s == "")
  | Json.arr l => !l.isEmpty
  | Json.obj l => !l.isEmpty

/-- A string-valued field of a JSON object, `""` when absent or not a
string. -/
def jsonStrField (j : Json) (key : String) : String :=
  match j with
  | Json.obj fields =>
    match jsonLookup fields key with
    | some (Json.str s) => s
    | _ => ""
  | _ => ""

/-- The severity `should_retry` (workflow.py lines 147-150) attributes to an
issue entry: it compares `issue.get("severity")` with `"critical"` (the
validator's print additionally consults `"warning"`); any other value acts
as non-critical. -/
def severityOfJson (j : Json) : Severity :=
  match j with
  | Json.obj fields =>
    match jsonLookup fields "severity" with
    | some (Json.str "critical") => Severity.critical
    | some (Json.str "warning") => Severity.warning
    | _ => Severity.info
  | _ => Severity.info

/-- Typed view of one issue entry (key `type` holds the kind). -/
def issueOfJson (j : Json) : Issue :=
  ⟨jsonStrField j "type", severityOfJson j,
   jsonStrField j "description", jsonStrField j "suggestion"⟩

/-- Typed view of the decoded validation dictionary, exactly as the later
reads in workflow.py observe it: `valid` is the truthiness of
`get("valid", False)` and `issues` the iterated `get("issues", [])`.
Meaningful only after `ValidatorAgent.inspect` succeeded (a non-dict never
reaches the state). -/
def validationOfJson : Json → ValidationResult
  | Json.obj fields =>
    ⟨pyTruthy (jsonGetD fields "valid" (Json.jbool false)),
     (pyElems (jsonGetD fields "issues" (Json.arr []))).map issueOfJson,
     jsonStrField (Json.obj fields) "overall_assessment",
     match jsonLookup fields "raw_response" with
     | some (Json.str s) => some s
     | _ => none⟩
  | _ => ⟨false, [], "", none⟩

/-- The four LangGraph nodes registered by `create_workflow`. -/
inductive Node where
  | parse : Node
  | extract_intents : Node
  | validate : Node
  | generate : Node
deriving DecidableEq, Repr

/-- `ConversionState` from workflow.py: the TypedDict threaded between the
agents. -/
structure ConversionState where
  source_code : String
  source_language : String
  target_language : String
  parsed_structure : Json
  intent_graph : Json
  validation_result : ValidationResult
  generated_code : String
  iteration_count : Nat
  max_iterations : Nat
  status : String
  error_message : String

/-- The opaque text-generation capability (`self.llm.invoke`) used by the
four agents.  Each field maps the semantic inputs of the corresponding
prompt to the response content; `Except.error` models an exception raised
by the call (capability unreachable). -/
structure Capability where
  parserLLM : String → String → Except String String
  extractorLLM : Json → String → String → Except String String
  validatorLLM : Json → Json → String → Except String String
  generatorLLM : String → Json → String → String → Except String String

/-- The Python-stdlib JSON decoding step each of the three parsing agents
applies to the response content (markdown-fence cleanup followed by
`json.loads`).  `Except.error e` models a raised `json.JSONDecodeError`
with `str(e) = e`; `Except.ok j` models the decoded value, of any JSON
shape — the shape checks the agents then perform on it are repository code
and are modelled separately by the `inspect` functions below. -/
structure Decoder where
  decodeJson : String → Except String Json

/-- The inspection `ParserAgent.parse` performs on the decoded value
(parser_agent.py lines 110-117): the success prints call
`parsed_info.get("variables", [])`, `.get("operations", [])` and
`.get("libraries", [])` and take `len()` of each.  On a non-dict this
raises `AttributeError` (`.get` does not exist); on a dict whose field has
no `len()` it raises `TypeError`.  Neither is caught by the agent (only
`json.JSONDecodeError` is), so the error propagates; error messages are
not observed by the engine and are modelled schematically. -/
def ParserAgent.inspect (parsed_info : Json) : Except String Json :=
  match parsed_info with
  | Json.obj fields =>
    if pySized (jsonGetD fields "variables" (Json.arr [])) &&
        pySized (jsonGetD fields "operations" (Json.arr [])) &&
        pySized (jsonGetD fields "libraries" (Json.arr [])) then
      Except.ok (Json.obj fields)
    else Except.error "TypeError: object has no len()"
  | _ => Except.error "AttributeError: object has no attribute get"

/-- `ParserAgent.parse` (parser_agent.py): ask the capability, decode the
JSON; on `JSONDecodeError` return the fallback dictionary
`{raw_analysis, parsing_status, error}` instead of raising; a decoded but
ill-shaped reply raises out of the stage via the inspection. -/
def ParserAgent.parse (cap : Capability) (dec : Decoder)
    (source_code language : String) : Except String Json :=
  match cap.parserLLM source_code language with
  | Except.error e => Except.error e
  | Except.ok content =>
    match dec.decodeJson content with
    | Except.ok parsed_info => ParserAgent.inspect parsed_info
    | Except.error e =>
      Except.ok (Json.obj [("raw_analysis", Json.str content),
                           ("parsing_status", Json.str "failed_json_parse"),
                           ("error", Json.str e)])

/-- Whether the per-intent print `intent["id"]: intent["description"]`
(intent_extractor.py line 133) succeeds on an entry: the entry must be a
dict containing both keys (a non-dict raises `TypeError`, a dict missing a
key raises `KeyError`). -/
def intentEntryOk (intent : Json) : Bool :=
  match intent with
  | Json.obj fields =>
    (jsonLookup fields "id").isSome && (jsonLookup fields "description").isSome
  | _ => false

/-- The inspection `IntentExtractorAgent.extract_intents` performs on the
decoded value (intent_extractor.py lines 126-133): `.get` calls on the
graph (`AttributeError` on a non-dict), `len()` of `get("intents", [])`
(`TypeError` when unsized), then a loop subscripting every yielded intent
entry with `"id"` and `"description"`.  None of these errors is caught by
the agent. -/
def IntentExtractorAgent.inspect (intent_graph : Json) : Except String Json :=
  match intent_graph with
  | Json.obj fields =>
    let intents := jsonGetD fields "intents" (Json.arr [])
    if pySized intents then
      if (pyElems intents).all intentEntryOk then Except.ok (Json.obj fields)
      else Except.error "TypeError or KeyError: ill-shaped intent entry"
    else Except.error "TypeError: object has no len()"
  | _ => Except.error "AttributeError: object has no attribute get"

/-- `IntentExtractorAgent.extract_intents` (intent_extractor.py): ask the
capability, decode the JSON; on `JSONDecodeError` return the fallback
dictionary `{raw_intents, parsing_status, error}` instead of raising; a
decoded but ill-shaped reply raises out of the stage via the inspection. -/
def IntentExtractorAgent.extract_intents (cap : Capability) (dec : Decoder)
    (parsed_code : Json) (original_code source_language : String) : Except String Json :=
  match cap.extractorLLM parsed_code original_code source_language with
  | Except.error e => Except.error e
  | Except.ok content =>
    match dec.decodeJson content with
    | Except.ok intent_graph => IntentExtractorAgent.inspect intent_graph
    | Except.error e =>
      Except.ok (Json.obj [("raw_intents", Json.str content),
                           ("parsing_status", Json.str "failed_json_parse"),
                           ("error", Json.str e)])

/-- Whether `issue.get("severity")` (validator_agent.py lines 121-124)
succeeds on an issues entry: only dicts have `.get`; any other yielded
element raises `AttributeError`. -/
def issueEntryHasGet (issue : Json) : Bool :=
  match issue with
  | Json.obj _ => true
  | _ => false

/-- The inspection `ValidatorAgent.validate` performs on the decoded value
(validator_agent.py lines 118-124): `.get` calls on the result
(`AttributeError` on a non-dict), then the two severity-counting sums
iterate `get("issues", [])` (`TypeError` when not iterable) and call
`.get("severity")` on every yielded element.  None of these errors is
caught by the agent. -/
def ValidatorAgent.inspect (validation_result : Json) : Except String Json :=
  match validation_result with
  | Json.obj fields =>
    let issues := jsonGetD fields "issues" (Json.arr [])
    if pySized issues then
      if (pyElems issues).all issueEntryHasGet then Except.ok (Json.obj fields)
      else Except.error "AttributeError: object has no attribute get"
    else Except.error "TypeError: object is not iterable"
  | _ => Except.error "AttributeError: object has no attribute get"

/-- `ValidatorAgent.validate` (Core Agents/validator_agent.py): ask the
capability, decode the JSON; on `JSONDecodeError` return the degraded
result `{valid: true, issues: [], overall_assessment: ..., raw_response:
response.content}` instead of raising; a decoded but ill-shaped reply
raises out of the stage via the inspection; otherwise the stored
dictionary is rendered by its typed view `validationOfJson`. -/
def ValidatorAgent.validate (cap : Capability) (dec : Decoder)
    (intent_graph parsed_structure : Json) (original_code : String) :
    Except String ValidationResult :=
  match cap.validatorLLM intent_graph parsed_structure original_code with
  | Except.error e => Except.error e
  | Except.ok content =>
    match dec.decodeJson content with
    | Except.error _ =>
      Except.ok ⟨true, [], "Could not parse validation response", some content⟩
    | Except.ok validation_result =>
      match ValidatorAgent.inspect validation_result with
      | Except.error e => Except.error e
      | Except.ok _ => Except.ok (validationOfJson validation_result)

/-- Python `str.strip()` on the underlying character list: drop whitespace
from both ends. -/
def stripChars (xs : List Char) : List Char :=
  ((xs.dropWhile Char.isWhitespace).reverse.dropWhile Char.isWhitespace).reverse

/-- Python `str.strip()`. -/
def pyStrip (s : String) : String := ⟨stripChars s.data⟩

/-- Python `str.startswith(pre)`. -/
def pyStartsWith (s pre : String) : Bool := pre.data.isPrefixOf s.data

/-- Python `str.endswith(suf)`. -/
def pyEndsWith (s suf : String) : Bool := suf.data.isSuffixOf s.data

/-- Characters of `xs` up to (excluding) the first occurrence of the
separator `sep`; all of `xs` when `sep` does not occur. -/
def takeUntilSeq (sep : List Char) : List Char → List Char
  | [] => []
  | x :: xs => if sep.isPrefixOf (x :: xs) then [] else x :: takeUntilSeq sep xs

/-- Python `s.split(sep)[1]` in the case — the only one in which the code
uses it — where `sep` is known to be a prefix of `s`: the segment between
the first occurrence of `sep` and the next one (or the end). -/
def pySplitGetSecond (s sep : String) : String :=
  ⟨takeUntilSeq sep.data (s.data.drop sep.data.length)⟩

/-- Python `str.split(c)` for a single-character separator (keeps empty
segments, one more segment than separators). -/
def splitChar (c : Char) : List Char → List (List Char)
  | [] => [[]]
  | x :: xs =>
    if x = c then [] :: splitChar c xs
    else
      match splitChar c xs with
      | [] => [[x]]
      | l :: ls => (x :: l) :: ls

/-- Python `c.join(segments)` for a single-character separator. -/
def joinChar (c : Char) : List (List Char) → List Char
  | [] => []
  | [l] => l
  | l :: ls => l ++ c :: joinChar c ls

/-- The characters before the last occurrence of `sep`, `none` when `sep`
does not occur. -/
def beforeLastSeq (sep : List Char) : List Char → Option (List Char)
  | [] => none
  | x :: xs =>
    match beforeLastSeq sep xs with
    | some rest => some (x :: rest)
    | none => if sep.isPrefixOf (x :: xs) then some [] else none

/-- Python `s.rsplit(sep, 1)[0]`: everything before the last occurrence of
`sep`; all of `s` when `sep` does not occur. -/
def pyRSplitFirst (s sep : String) : String :=
  match beforeLastSeq sep.data s.data with
  | some pre => ⟨pre⟩
  | none => s

/-- The markdown-fence cleanup `CodeGeneratorAgent.generate` applies to the
response content before returning it (CoreAgents/code_generator.py):
strip; if the text starts with a python code fence take what follows it,
else if it starts with a bare fence drop the first and last lines; then
remove a trailing fence; strip again. -/
def cleanGeneratedCode (content : String) : String :=
  let g := pyStrip content
  let g :=
    if pyStartsWith g "```python" then pySplitGetSecond g "```python"
    else if pyStartsWith g "```" then
      let lines := splitChar '\n' g.data
      if lines.length > 2 then ⟨joinChar '\n' ((lines.drop 1).dropLast)⟩ else g
    else g
  let g := if pyEndsWith g "```" then pyRSplitFirst g "```" else g
  pyStrip g

/-- `CodeGeneratorAgent.generate` (CoreAgents/code_generator.py): ask the
capability and return the cleaned response content.  A decoding failure
cannot occur here — the response is used as a plain string. -/
def CodeGeneratorAgent.generate (cap : Capability) (target_language : String)
    (intent_graph : Json) (original_code source_language : String) :
    Except String String :=
  match cap.generatorLLM target_language intent_graph original_code source_language with
  | Except.error e => Except.error e
  | Except.ok content => Except.ok (cleanGeneratedCode content)

/-- `parse_node` (workflow.py): run ParserAgent on the source code and store
the result in `parsed_structure`. -/
def parse_node (cap : Capability) (dec : Decoder) (state : ConversionState) :
    Except String ConversionState :=
  match ParserAgent.parse cap dec state.source_code state.source_language with
  | Except.error e => Except.error e
  | Except.ok parsed => Except.ok { state with parsed_structure := parsed }

/-- `extract_intents_node` (workflow.py): run IntentExtractorAgent, store the
result in `intent_graph`, and increment `iteration_count` by one. -/
def extract_intents_node (cap : Capability) (dec : Decoder) (state : ConversionState) :
    Except String ConversionState :=
  match IntentExtractorAgent.extract_intents cap dec state.parsed_structure
      state.source_code state.source_language with
  | Except.error e => Except.error e
  | Except.ok intentions =>
    Except.ok { state with intent_graph := intentions,
                           iteration_count := state.iteration_count + 1 }

/-- `validate_node` (workflow.py): run ValidatorAgent and store the result in
`validation_result`. -/
def validate_node (cap : Capability) (dec : Decoder) (state : ConversionState) :
    Except String ConversionState :=
  match ValidatorAgent.validate cap dec state.intent_graph state.parsed_structure
      state.source_code with
  | Except.error e => Except.error e
  | Except.ok validation => Except.ok { state with validation_result := validation }

/-- `generate_node` (workflow.py): run CodeGeneratorAgent, store the result
in `generated_code`, and set `status` to `success`. -/
def generate_node (cap : Capability) (state : ConversionState) :
    Except String ConversionState :=
  match CodeGeneratorAgent.generate cap state.target_language state.intent_graph
      state.source_code state.source_language with
  | Except.error e => Except.error e
  | Except.ok generated =>
    Except.ok { state with generated_code := generated, status := "success" }

/-- `should_retry` (workflow.py): return `"extract_intents"` when validation
failed (invalid or any critical issue) and the iteration budget is not yet
exhausted, `"generate"` otherwise. -/
def should_retry (state : ConversionState) : String :=
  let validation := state.validation_result
  let is_valid := validation.valid
  let iteration := state.iteration_count
  let max_iter := state.max_iterations
  let critical_issues := validation.issues.filter
    (fun issue => issue.severity == Severity.critical)
  if !is_valid || !critical_issues.isEmpty then
    if iteration < max_iter then "extract_intents" else "generate"
  else "generate"

/-- Execution of the cyclic stage graph built by `create_workflow`, from the
`extract_intents` node on: run `extract_intents`, then `validate`, then
follow the conditional edge given by `should_retry` (loop back to
`extract_intents`, or run `generate` and stop).  The run also returns the
sequence of nodes executed.  The `fuel` argument bounds the number of
passes through the loop, mirroring the step bound LangGraph imposes on a
cyclic graph; `convert_with_workflow` below always supplies enough fuel,
since `should_retry` loops only while `iteration_count < max_iterations`. -/
def workflow_loop (cap : Capability) (dec : Decoder) :
    Nat → ConversionState → Except String (ConversionState × List Node)
  | 0, _ => Except.error "GraphRecursionError"
  | Nat.succ fuel, state =>
    match extract_intents_node cap dec state with
    | Except.error e => Except.error e
    | Except.ok s1 =>
      match validate_node cap dec s1 with
      | Except.error e => Except.error e
      | Except.ok s2 =>
        if should_retry s2 == "extract_intents" then
          match workflow_loop cap dec fuel s2 with
          | Except.error e => Except.error e
          | Except.ok (s3, trace) =>
            Except.ok (s3, Node.extract_intents :: Node.validate :: trace)
        else
          match generate_node cap s2 with
          | Except.error e => Except.error e
          | Except.ok s3 =>
            Except.ok (s3, [Node.extract_intents, Node.validate, Node.generate])

/-- `app.invoke` on the graph compiled by `create_workflow`: entry point
`parse`, unconditional edge to `extract_intents`, then the loop above.
Returns the terminal state together with the sequence of executed nodes;
`Except.error` models an exception propagating out of `invoke`. -/
def app_invoke (cap : Capability) (dec : Decoder) (state : ConversionState) :
    Except String (ConversionState × List Node) :=
  match parse_node cap dec state with
  | Except.error e => Except.error e
  | Except.ok s1 =>
    match workflow_loop cap dec (state.max_iterations + 1) s1 with
    | Except.error e => Except.error e
    | Except.ok (s2, trace) => Except.ok (s2, Node.parse :: trace)

/-- The `initial_state` dictionary built by `convert_with_workflow`.  The
empty dictionaries for `parsed_structure` and `intent_graph` are `{}`; the
empty `validation_result` dictionary is represented by the value its fields
project to under the reads the code performs (`get("valid", False)` and
`get("issues", [])`). -/
def initial_state (source_code source_lang target_lang : String)
    (max_iterations : Nat) : ConversionState :=
  ⟨source_code, source_lang, target_lang, Json.obj [], Json.obj [],
   ⟨false, [], "", none⟩, "", 0, max_iterations, "in_progress", ""⟩

/-- `convert_with_workflow` (workflow.py): build the initial state, invoke
the compiled graph, and return the final state; if any exception escapes
the invocation, log it and return `None` (modelled by `none`). -/
def convert_with_workflow (cap : Capability) (dec : Decoder)
    (source_code source_lang target_lang : String) (max_iterations : Nat) :
    Option ConversionState :=
  match app_invoke cap dec
      (initial_state source_code source_lang target_lang max_iterations) with
  | Except.ok final_state => some final_state.fst
  | Except.error _ => none

/-- The response body of POST /convert (api.py), processing time omitted
(wall clock is not modelled). -/
structure ConversionResponse where
  success : Bool
  generated_code : Option String
  intent_graph : Option Json
  validation_result : Option ValidationResult
  iterations : Nat
  error_message : Option String

/-- Outcome of the `convert_code` endpoint handler: either an HTTPException
with a status code and detail, or a ConversionResponse body. -/
inductive ApiOutcome where
  | httpError : Nat → String → ApiOutcome
  | response : ConversionResponse → ApiOutcome

/-- `convert_code` (API/api.py): reject blank source code and out-of-range
`max_iterations` with HTTP 400 before running the workflow; then call
`convert_with_workflow` and turn `None` into HTTP 500.  `max_iterations`
arrives as a (possibly negative) integer from the request body. -/
def convert_code (cap : Capability) (dec : Decoder)
    (source_code source_language target_language : String)
    (max_iterations : Int) : ApiOutcome :=
  if source_code == "" || pyStrip source_code == "" then
    ApiOutcome.httpError 400 "Source code cannot be empty"
  else if max_iterations < 1 || max_iterations > 10 then
    ApiOutcome.httpError 400 "max_iterations must be between 1 and 10"
  else
    match convert_with_workflow cap dec source_code source_language
        target_language max_iterations.toNat with
    | some result =>
      ApiOutcome.response ⟨true, some result.generated_code, some result.intent_graph,
        some result.validation_result, result.iteration_count, some result.error_message⟩
    | none => ApiOutcome.httpError 500 "Conversion workflow failed"

/-- A benign concrete capability: every stage reply arrives, the generator
answers with a small program. -/
def stubCap : Capability :=
  ⟨fun _ _ => Except.ok "stub", fun _ _ _ => Except.ok "stub",
   fun _ _ _ => Except.ok "stub", fun _ _ _ _ => Except.ok "print(1)"⟩

/-- A well-shaped decoded reply carrying the verdict `valid = true` with no
issues. -/
def stubValidReply : Json :=
  Json.obj [("valid", Json.jbool true), ("issues", Json.arr [])]

/-- A well-shaped decoded reply carrying the verdict `valid = false`. -/
def stubInvalidReply : Json :=
  Json.obj [("valid", Json.jbool false), ("issues", Json.arr [])]

/-- A decoder for which every reply decodes to the well-shaped
`valid = true` dictionary. -/
def stubDec : Decoder := ⟨fun _ => Except.ok stubValidReply⟩

/-- A decoder for which every reply decodes to the well-shaped
`valid = false` dictionary. -/
def invalidDec : Decoder := ⟨fun _ => Except.ok stubInvalidReply⟩

/-- A decoder for which every response fails JSON decoding, as `json.loads`
does on non-JSON text. -/
def noParseDec : Decoder :=
  ⟨fun _ => Except.error "Expecting value: line 1 column 1 (char 0)"⟩

/-- The parser fallback dictionary produced for the reply `"stub"` under
`noParseDec`. -/
def noParseParsedFallback : Json :=
  Json.obj [("raw_analysis", Json.str "stub"),
            ("parsing_status", Json.str "failed_json_parse"),
            ("error", Json.str "Expecting value: line 1 column 1 (char 0)")]

/-- The extractor fallback dictionary produced for the reply `"stub"` under
`noParseDec`. -/
def noParseIntentFallback : Json :=
  Json.obj [("raw_intents", Json.str "stub"),
            ("parsing_status", Json.str "failed_json_parse"),
            ("error", Json.str "Expecting value: line 1 column 1 (char 0)")]

/-- A capability whose parser stage is unreachable: the first LLM call
raises. -/
def failCap : Capability :=
  ⟨fun _ _ => Except.error "Capability unreachable", fun _ _ _ => Except.ok "stub",
   fun _ _ _ => Except.ok "stub", fun _ _ _ _ => Except.ok "stub"⟩

/-- A successful `parse_node` only rewrites `parsed_structure`. -/
theorem parse_node_ok_shape {cap : Capability} {dec : Decoder}
    {s s' : ConversionState} (h : parse_node cap dec s = Except.ok s') :
    ∃ p, s' = { s with parsed_structure := p } := by
  unfold parse_node at h
  cases hp : ParserAgent.parse cap dec s.source_code s.source_language with
  | error e => simp [hp] at h
  | ok p => simp [hp] at h; exact ⟨p, h.symm⟩

/-- A successful `extract_intents_node` rewrites `intent_graph` and adds one
to `iteration_count`, and does nothing else. -/
theorem extract_intents_node_ok_shape {cap : Capability} {dec : Decoder}
    {s s' : ConversionState} (h : extract_intents_node cap dec s = Except.ok s') :
    ∃ g, s' = { s with intent_graph := g,
                       iteration_count := s.iteration_count + 1 } := by
  unfold extract_intents_node at h
  cases hg : IntentExtractorAgent.extract_intents cap dec s.parsed_structure
      s.source_code s.source_language with
  | error e => simp [hg] at h
  | ok g => simp [hg] at h; exact ⟨g, h.symm⟩

/-- A successful `validate_node` only rewrites `validation_result`, with the
value the validator agent returned. -/
theorem validate_node_ok_shape {cap : Capability} {dec : Decoder}
    {s s' : ConversionState} (h : validate_node cap dec s = Except.ok s') :
    ∃ v, ValidatorAgent.validate cap dec s.intent_graph s.parsed_structure
        s.source_code = Except.ok v ∧ s' = { s with validation_result := v } := by
  unfold validate_node at h
  cases hv : ValidatorAgent.validate cap dec s.intent_graph s.parsed_structure
      s.source_code with
  | error e => simp [hv] at h
  | ok v => simp [hv] at h; exact ⟨v, rfl, h.symm⟩

/-- A successful `generate_node` rewrites `generated_code`, sets `status` to
`success`, and does nothing else. -/
theorem generate_node_ok_shape {cap : Capability}
    {s s' : ConversionState} (h : generate_node cap s = Except.ok s') :
    ∃ c, s' = { s with generated_code := c, status := "success" } := by
  unfold generate_node at h
  cases hc : CodeGeneratorAgent.generate cap s.target_language s.intent_graph
      s.source_code s.source_language with
  | error e => simp [hc] at h
  | ok c => simp [hc] at h; exact ⟨c, h.symm⟩

/-- Characterisation of the retry decision: `should_retry` answers
`"extract_intents"` exactly when the result is invalid or has a critical
issue, and the iteration budget is not exhausted. -/
theorem should_retry_extract_iff (s : ConversionState) :
    should_retry s = "extract_intents" ↔
      ((s.validation_result.valid = false ∨
          ∃ i ∈ s.validation_result.issues, i.severity = Severity.critical) ∧
        s.iteration_count < s.max_iterations) := by
  unfold should_retry
  by_cases hv : s.validation_result.valid <;>
    by_cases hc : (s.validation_result.issues.filter
        (fun issue => issue.severity == Severity.critical)) = [] <;>
      by_cases hi : s.iteration_count < s.max_iterations <;>
        simp [hv, hc, hi, List.isEmpty_iff, List.filter_eq_nil_iff] <;>
          (try simp [List.filter_eq_nil_iff] at hc) <;> exact hc

/-- `should_retry` never invents a third route: its result is either
`"extract_intents"` or `"generate"`. -/
theorem should_retry_cases (s : ConversionState) :
    should_retry s = "extract_intents" ∨ should_retry s = "generate" := by
  unfold should_retry
  by_cases hv : s.validation_result.valid <;>
    by_cases hc : (s.validation_result.issues.filter
        (fun issue => issue.severity == Severity.critical)).isEmpty <;>
      by_cases hi : s.iteration_count < s.max_iterations <;>
        simp [hv, hc, hi]

/-- The retry route is taken only while `iteration_count < max_iterations`. -/
theorem should_retry_lt_of_extract {s : ConversionState}
    (h : should_retry s = "extract_intents") :
    s.iteration_count < s.max_iterations :=
  ((should_retry_extract_iff s).mp h).2

/-- With the iteration budget exhausted the decision is always to proceed to
generation. -/
theorem should_retry_generate_of_budget {s : ConversionState}
    (h : ¬ s.iteration_count < s.max_iterations) : should_retry s = "generate" := by
  unfold should_retry
  by_cases hc : (!s.validation_result.valid ||
      !(s.validation_result.issues.filter
          (fun issue => issue.severity == Severity.critical)).isEmpty) = true <;>
    simp [hc, h]

/-- With a valid verdict and no critical issue the decision is to proceed to
generation. -/
theorem should_retry_generate_of_valid {s : ConversionState}
    (hv : s.validation_result.valid = true)
    (hc : ∀ i ∈ s.validation_result.issues, i.severity ≠ Severity.critical) :
    should_retry s = "generate" := by
  unfold should_retry
  have hfil : (s.validation_result.issues.filter
      (fun issue => issue.severity == Severity.critical)) = [] := by
    simp [List.filter_eq_nil_iff]
    exact hc
  simp [hv, hfil]

/-- Invariant of the retry loop: a successfully terminating loop run ends
with `status = success`, leaves `max_iterations` unchanged, and its final
`iteration_count` is bounded by `max (entry count + 1) max_iterations`. -/
theorem workflow_loop_ok_inv {cap : Capability} {dec : Decoder} :
    ∀ (fuel : Nat) (s s' : ConversionState) (tr : List Node),
      workflow_loop cap dec fuel s = Except.ok (s', tr) →
      s'.iteration_count ≤ max (s.iteration_count + 1) s.max_iterations ∧
        s'.status = "success" ∧ s'.max_iterations = s.max_iterations := by
  intro fuel
  induction fuel with
  | zero => intro s s' tr h; simp [workflow_loop] at h
  | succ fuel ih =>
    intro s s' tr h
    unfold workflow_loop at h
    cases he : extract_intents_node cap dec s with
    | error e => simp [he] at h
    | ok s1 =>
      cases hv : validate_node cap dec s1 with
      | error e => simp [he, hv] at h
      | ok s2 =>
        obtain ⟨g, hs1⟩ := extract_intents_node_ok_shape he
        obtain ⟨v, _, hs2⟩ := validate_node_ok_shape hv
        simp only [he, hv] at h
        by_cases hr : (should_retry s2 == "extract_intents") = true
        · have hlt : s2.iteration_count < s2.max_iterations :=
            should_retry_lt_of_extract (by exact beq_iff_eq.mp hr)
          rw [if_pos hr] at h
          cases hrec : workflow_loop cap dec fuel s2 with
          | error e => simp [hrec] at h
          | ok p =>
            obtain ⟨s3, tr'⟩ := p
            simp [hrec] at h
            obtain ⟨hs', _⟩ := h
            obtain ⟨hb, hst, hm⟩ := ih s2 s3 tr' hrec
            subst hs'
            have h2c : s2.iteration_count = s.iteration_count + 1 := by
              rw [hs2, hs1]
            have h2m : s2.max_iterations = s.max_iterations := by
              rw [hs2, hs1]
            rw [h2c, h2m] at hb hlt
            refine ⟨?_, hst, by rw [hm, h2m]⟩
            omega
        · rw [if_neg hr] at h
          cases hg : generate_node cap s2 with
          | error e => simp [hg] at h
          | ok s3 =>
            simp [hg] at h
            obtain ⟨hs', _⟩ := h
            obtain ⟨c, hs3⟩ := generate_node_ok_shape hg
            subst hs'
            have h2c : s2.iteration_count = s.iteration_count + 1 := by
              rw [hs2, hs1]
            have h2m : s2.max_iterations = s.max_iterations := by
              rw [hs2, hs1]
            rw [hs3]
            simp [h2c, h2m]

/-- Exact behaviour of the retry loop when every stage execution succeeds
and every Validate pass stores a verdict with `valid = false`: entered with
`iteration_count < max_iterations`, the loop runs until the counter reaches
`max_iterations`, then generates and succeeds; the number of
`extract_intents` executions is exactly the remaining budget. -/
theorem workflow_loop_always_invalid {cap : Capability} {dec : Decoder}
    (he : ∀ s, ∃ s', extract_intents_node cap dec s = Except.ok s')
    (hv : ∀ s, ∃ s', validate_node cap dec s = Except.ok s' ∧
      s'.validation_result.valid = false)
    (hg : ∀ s, ∃ s', generate_node cap s = Except.ok s') :
    ∀ (fuel : Nat) (s : ConversionState),
      s.iteration_count < s.max_iterations →
      s.max_iterations - s.iteration_count ≤ fuel →
      ∃ s' tr, workflow_loop cap dec fuel s = Except.ok (s', tr) ∧
        s'.iteration_count = s.max_iterations ∧ s'.status = "success" ∧
        s'.max_iterations = s.max_iterations ∧
        tr.count Node.extract_intents = s.max_iterations - s.iteration_count := by
  intro fuel
  induction fuel with
  | zero => intro s hlt hfuel; omega
  | succ fuel ih =>
    intro s hlt hfuel
    obtain ⟨s1, hex⟩ := he s
    obtain ⟨g, hs1⟩ := extract_intents_node_ok_shape hex
    obtain ⟨s2, hval, hvf⟩ := hv s1
    obtain ⟨v, -, hs2⟩ := validate_node_ok_shape hval
    have h2c : s2.iteration_count = s.iteration_count + 1 := by rw [hs2, hs1]
    have h2m : s2.max_iterations = s.max_iterations := by rw [hs2, hs1]
    by_cases hnext : s.iteration_count + 1 < s.max_iterations
    · have hroute : should_retry s2 = "extract_intents" :=
        (should_retry_extract_iff s2).mpr
          ⟨Or.inl hvf, by rw [h2c, h2m]; exact hnext⟩
      obtain ⟨s3, tr, hloop, hc3, hst3, hm3, hcnt⟩ := ih s2
        (by rw [h2c, h2m]; exact hnext) (by rw [h2c, h2m]; omega)
      refine ⟨s3, Node.extract_intents :: Node.validate :: tr, ?_, ?_, hst3, ?_, ?_⟩
      · unfold workflow_loop
        simp [hex, hval, hroute, hloop]
      · rw [hc3, h2m]
      · rw [hm3, h2m]
      · simp only [List.count_cons]
        rw [hcnt, h2c, h2m]
        simp
        omega
    · have hroute : should_retry s2 = "generate" :=
        should_retry_generate_of_budget (by rw [h2c, h2m]; exact hnext)
      obtain ⟨s3, hgen⟩ := hg s2
      obtain ⟨cg, hs3⟩ := generate_node_ok_shape hgen
      refine ⟨s3, [Node.extract_intents, Node.validate, Node.generate],
        ?_, ?_, ?_, ?_, ?_⟩
      · unfold workflow_loop
        have hb : (should_retry s2 == "extract_intents") = false := by
          rw [hroute]
          decide
        simp [hex, hval, hb, hgen]
      · rw [hs3]
        show s2.iteration_count = s.max_iterations
        rw [h2c]
        omega
      · rw [hs3]
      · rw [hs3]
        exact h2m
      · simp [List.count_cons]
        omega

/-- The terminal state of the benign stub run on source `"x"` with
`max_iterations = 3`: one extraction pass, then generation. -/
def stubRunFinal : ConversionState :=
  ⟨"x", "R", "Python", stubValidReply, stubValidReply, ⟨true, [], "", none⟩,
   "print(1)", 1, 3, "success", ""⟩

/-- C3: `should_retry` routes to ExtractIntent exactly when the verdict is
invalid or carries a critical issue and the budget is not exhausted, and
routes to Generate in every other case; warning/info issues alone never
trigger a retry. -/
theorem c3_should_retry_decision (s : ConversionState) :
    (should_retry s = "extract_intents" ↔
      ((s.validation_result.valid = false ∨
          ∃ i ∈ s.validation_result.issues, i.severity = Severity.critical) ∧
        s.iteration_count < s.max_iterations)) ∧
    (should_retry s = "generate" ↔
      ¬ ((s.validation_result.valid = false ∨
          ∃ i ∈ s.validation_result.issues, i.severity = Severity.critical) ∧
        s.iteration_count < s.max_iterations)) := by
  refine ⟨should_retry_extract_iff s, ?_, ?_⟩
  · intro hg hp
    have hx := (should_retry_extract_iff s).mpr hp
    rw [hg] at hx
    exact absurd hx (by decide)
  · intro hn
    rcases should_retry_cases s with h | h
    · exact absurd ((should_retry_extract_iff s).mp h) hn
    · exact h

/-- C4: whenever `convert_with_workflow` returns a terminal state, its
`iteration_count` is at most `max_iterations`, for any capability and
decoder (hence regardless of the validation outcomes along the way). -/
theorem c4_iteration_count_bounded (cap : Capability) (dec : Decoder)
    (source_code source_lang target_lang : String) (N : Nat)
    (final : ConversionState) (hN : 1 ≤ N)
    (h : convert_with_workflow cap dec source_code source_lang target_lang N
        = some final) :
    final.iteration_count ≤ N := by
  unfold convert_with_workflow at h
  cases ha : app_invoke cap dec
      (initial_state source_code source_lang target_lang N) with
  | error e => simp [ha] at h
  | ok p =>
    simp [ha] at h
    obtain ⟨s2, tr⟩ := p
    unfold app_invoke at ha
    cases hp : parse_node cap dec
        (initial_state source_code source_lang target_lang N) with
    | error e => simp [hp] at ha
    | ok s1 =>
      simp only [hp] at ha
      cases hl : workflow_loop cap dec
          ((initial_state source_code source_lang target_lang N).max_iterations + 1)
          s1 with
      | error e => simp [hl] at ha
      | ok q =>
        obtain ⟨s2', tr'⟩ := q
        simp [hl] at ha
        obtain ⟨hb, _, _⟩ := workflow_loop_ok_inv _ s1 s2' tr' hl
        obtain ⟨pv, hs1⟩ := parse_node_ok_shape hp
        have h1c : s1.iteration_count = 0 := by rw [hs1]; rfl
        have h1m : s1.max_iterations = N := by rw [hs1]; rfl
        rw [h1c, h1m] at hb
        have hfin : final = s2' := by rw [← h, ha.1]
        rw [hfin]
        omega

/-- C4 witness: the bound holds on a concrete benign run with
`max_iterations = 3`, which terminates after one iteration. -/
theorem c4_iteration_count_bounded_witness :
    (1 ≤ 3 ∧ convert_with_workflow stubCap stubDec "x" "R" "Python" 3
        = some stubRunFinal) ∧
    stubRunFinal.iteration_count ≤ 3 :=
  ⟨⟨by decide, rfl⟩,
   c4_iteration_count_bounded stubCap stubDec "x" "R" "Python" 3 stubRunFinal
     (by decide) rfl⟩

/-- C9: with a fixed (deterministic) capability and decoder, two invocations
of `convert_with_workflow` on identical inputs yield identical
`generated_code` and identical `iteration_count`. -/
theorem c9_deterministic (cap : Capability) (dec : Decoder)
    (source_code source_lang target_lang : String) (N : Nat)
    (s1 s2 : ConversionState)
    (h1 : convert_with_workflow cap dec source_code source_lang target_lang N
        = some s1)
    (h2 : convert_with_workflow cap dec source_code source_lang target_lang N
        = some s2) :
    s1.generated_code = s2.generated_code ∧
      s1.iteration_count = s2.iteration_count := by
  rw [h1] at h2
  have h := Option.some.inj h2
  rw [h]
  exact ⟨rfl, rfl⟩

/-- C9 witness: instantiated on the benign stub run. -/
theorem c9_deterministic_witness :
    stubRunFinal.generated_code = stubRunFinal.generated_code ∧
      stubRunFinal.iteration_count = stubRunFinal.iteration_count :=
  c9_deterministic stubCap stubDec "x" "R" "Python" 3 stubRunFinal stubRunFinal
    rfl rfl

/-- C10: when the extractor capability reply fails JSON decoding, the stage
does not raise: the node stores the fallback graph whose only keys are
`raw_intents`, `parsing_status` and `error` — in particular it has none of
`intents`, `data_flow`, `overall_goal` — and still increments the iteration
counter by exactly 1. -/
theorem c10_extractor_fallback (cap : Capability) (dec : Decoder)
    (s : ConversionState) (r e : String)
    (hr : cap.extractorLLM s.parsed_structure s.source_code s.source_language
        = Except.ok r)
    (hd : dec.decodeJson r = Except.error e) :
    extract_intents_node cap dec s = Except.ok
      { s with
        intent_graph := Json.obj [("raw_intents", Json.str r),
                                  ("parsing_status", Json.str "failed_json_parse"),
                                  ("error", Json.str e)],
        iteration_count := s.iteration_count + 1 } ∧
    (Json.obj [("raw_intents", Json.str r),
               ("parsing_status", Json.str "failed_json_parse"),
               ("error", Json.str e)]).keys
      = ["raw_intents", "parsing_status", "error"] ∧
    "intents" ∉ (Json.obj [("raw_intents", Json.str r),
               ("parsing_status", Json.str "failed_json_parse"),
               ("error", Json.str e)]).keys ∧
    "data_flow" ∉ (Json.obj [("raw_intents", Json.str r),
               ("parsing_status", Json.str "failed_json_parse"),
               ("error", Json.str e)]).keys ∧
    "overall_goal" ∉ (Json.obj [("raw_intents", Json.str r),
               ("parsing_status", Json.str "failed_json_parse"),
               ("error", Json.str e)]).keys := by
  refine ⟨?_, rfl, by simp [Json.keys], by simp [Json.keys], by simp [Json.keys]⟩
  unfold extract_intents_node IntentExtractorAgent.extract_intents
  simp only [hr, hd]

/-- C10 witness: a concrete state whose extractor reply does not decode. -/
theorem c10_extractor_fallback_witness :
    extract_intents_node stubCap noParseDec (initial_state "x" "R" "Python" 3)
      = Except.ok
      { initial_state "x" "R" "Python" 3 with
        intent_graph := Json.obj
          [("raw_intents", Json.str "stub"),
           ("parsing_status", Json.str "failed_json_parse"),
           ("error", Json.str "Expecting value: line 1 column 1 (char 0)")],
        iteration_count := (initial_state "x" "R" "Python" 3).iteration_count + 1 } ∧
    (Json.obj [("raw_intents", Json.str "stub"),
               ("parsing_status", Json.str "failed_json_parse"),
               ("error", Json.str "Expecting value: line 1 column 1 (char 0)")]).keys
      = ["raw_intents", "parsing_status", "error"] ∧
    "intents" ∉ (Json.obj [("raw_intents", Json.str "stub"),
               ("parsing_status", Json.str "failed_json_parse"),
               ("error", Json.str "Expecting value: line 1 column 1 (char 0)")]).keys ∧
    "data_flow" ∉ (Json.obj [("raw_intents", Json.str "stub"),
               ("parsing_status", Json.str "failed_json_parse"),
               ("error", Json.str "Expecting value: line 1 column 1 (char 0)")]).keys ∧
    "overall_goal" ∉ (Json.obj [("raw_intents", Json.str "stub"),
               ("parsing_status", Json.str "failed_json_parse"),
               ("error", Json.str "Expecting value: line 1 column 1 (char 0)")]).keys :=
  c10_extractor_fallback stubCap noParseDec (initial_state "x" "R" "Python" 3)
    "stub" "Expecting value: line 1 column 1 (char 0)" rfl rfl

/-- C1 counterexample: with a parser capability that raises, the service
returns `none` (Python `None`) — the caller receives no state object at
all, and no state with `status = failed` or a recorded `errorMessage` is
produced. -/
theorem c1_counterexample :
    convert_with_workflow failCap stubDec "x <- 1" "R" "Python" 3 = none := rfl

/-- C1 (amended): an exception escaping a stage aborts the run and
`convert_with_workflow` returns `None` rather than re-raising; it never
returns a state with `status = failed` — every returned state has
`status = success`, and failure is signalled to callers solely by the
`None` result. -/
theorem c1_exception_returns_none (cap : Capability) (dec : Decoder)
    (source_code source_lang target_lang : String) (N : Nat) :
    (∃ final, convert_with_workflow cap dec source_code source_lang target_lang N
        = some final ∧ final.status = "success") ∨
      convert_with_workflow cap dec source_code source_lang target_lang N
        = none := by
  unfold convert_with_workflow
  cases ha : app_invoke cap dec
      (initial_state source_code source_lang target_lang N) with
  | error e => right; rfl
  | ok p =>
    obtain ⟨s', tr⟩ := p
    left
    refine ⟨s', rfl, ?_⟩
    unfold app_invoke at ha
    cases hp : parse_node cap dec
        (initial_state source_code source_lang target_lang N) with
    | error e => simp [hp] at ha
    | ok s1 =>
      simp only [hp] at ha
      cases hl : workflow_loop cap dec
          ((initial_state source_code source_lang target_lang N).max_iterations + 1)
          s1 with
      | error e => simp [hl] at ha
      | ok q =>
        obtain ⟨s2, tr'⟩ := q
        simp [hl] at ha
        obtain ⟨-, hst, -⟩ := workflow_loop_ok_inv _ s1 s2 tr' hl
        rw [← ha.1]
        exact hst

/-- Blank source code is rejected by the /convert handler with HTTP 400. -/
theorem convert_code_empty_reject (cap : Capability) (dec : Decoder)
    (source_code source_language target_language : String) (m : Int)
    (h : pyStrip source_code = "") :
    convert_code cap dec source_code source_language target_language m
      = ApiOutcome.httpError 400 "Source code cannot be empty" := by
  unfold convert_code
  have hcond : (source_code == "" || pyStrip source_code == "") = true := by
    simp [h]
  simp [hcond]

/-- An out-of-range iteration bound is rejected by the /convert handler with
HTTP 400 (when the source code is not blank). -/
theorem convert_code_range_reject (cap : Capability) (dec : Decoder)
    (source_code source_language target_language : String) (m : Int)
    (h1 : ¬ pyStrip source_code = "") (h2 : m < 1 ∨ 10 < m) :
    convert_code cap dec source_code source_language target_language m
      = ApiOutcome.httpError 400 "max_iterations must be between 1 and 10" := by
  unfold convert_code
  have hc : ¬ source_code = "" := by
    intro hh
    apply h1
    rw [hh]
    rfl
  have hcond : (source_code == "" || pyStrip source_code == "") = false := by
    simp [hc, h1]
  rcases h2 with h | h <;> simp [hcond, h]

/-- C2 counterexample: calling `convert_with_workflow` directly with empty
source code and `max_iterations = 0` is not rejected — the run executes the
Parse stage (and all later stages) and returns a state. -/
theorem c2_counterexample :
    (convert_with_workflow stubCap stubDec "" "R" "Python" 0).isSome = true ∧
    (app_invoke stubCap stubDec (initial_state "" "R" "Python" 0)).toOption.map
        Prod.snd
      = some [Node.parse, Node.extract_intents, Node.validate, Node.generate] :=
  ⟨rfl, rfl⟩

/-- C2 (amended): input validation lives in the API handler `convert_code`,
not in `convert_with_workflow`: the handler rejects blank source code, and
out-of-range `maxIterations`, with HTTP 400; in the rejecting cases its
outcome is independent of the capability and decoder, so no stage
executes. -/
theorem c2_validation_at_api_boundary (cap : Capability) (dec : Decoder)
    (source_code source_language target_language : String) (m : Int) :
    (pyStrip source_code = "" →
      convert_code cap dec source_code source_language target_language m
        = ApiOutcome.httpError 400 "Source code cannot be empty") ∧
    (pyStrip source_code ≠ "" → (m < 1 ∨ 10 < m) →
      convert_code cap dec source_code source_language target_language m
        = ApiOutcome.httpError 400 "max_iterations must be between 1 and 10") ∧
    ((pyStrip source_code = "" ∨ m < 1 ∨ 10 < m) →
      ∀ cap' dec', convert_code cap dec source_code source_language target_language m
        = convert_code cap' dec' source_code source_language target_language m) := by
  refine ⟨fun h => convert_code_empty_reject cap dec _ _ _ m h,
    fun h1 h2 => convert_code_range_reject cap dec _ _ _ m h1 h2, ?_⟩
  intro h cap' dec'
  by_cases hc : pyStrip source_code = ""
  · rw [convert_code_empty_reject cap dec _ _ _ m hc,
      convert_code_empty_reject cap' dec' _ _ _ m hc]
  · have h2 : m < 1 ∨ 10 < m := by tauto
    rw [convert_code_range_reject cap dec _ _ _ m hc h2,
      convert_code_range_reject cap' dec' _ _ _ m hc h2]

/-- C2 amended witness: concrete rejections of `max_iterations = 0` and of a
blank source. -/
theorem c2_validation_at_api_boundary_witness :
    convert_code stubCap stubDec "x" "R" "Python" 0
      = ApiOutcome.httpError 400 "max_iterations must be between 1 and 10" ∧
    convert_code stubCap stubDec " " "R" "Python" 3
      = ApiOutcome.httpError 400 "Source code cannot be empty" :=
  ⟨(c2_validation_at_api_boundary stubCap stubDec "x" "R" "Python" 0).2.1
      (by decide) (Or.inl (by decide)),
   (c2_validation_at_api_boundary stubCap stubDec " " "R" "Python" 3).1 (by rfl)⟩

/-- One-step unfolding of the loop runner at positive fuel. -/
theorem workflow_loop_succ_eq (cap : Capability) (dec : Decoder) (fuel : Nat)
    (s : ConversionState) :
    workflow_loop cap dec (fuel + 1) s =
      match extract_intents_node cap dec s with
      | Except.error e => Except.error e
      | Except.ok s1 =>
        match validate_node cap dec s1 with
        | Except.error e => Except.error e
        | Except.ok s2 =>
          if should_retry s2 == "extract_intents" then
            match workflow_loop cap dec fuel s2 with
            | Except.error e => Except.error e
            | Except.ok (s3, trace) =>
              Except.ok (s3, Node.extract_intents :: Node.validate :: trace)
          else
            match generate_node cap s2 with
            | Except.error e => Except.error e
            | Except.ok s3 =>
              Except.ok (s3, [Node.extract_intents, Node.validate, Node.generate]) := rfl

/-- C5: in any run whose stage executions all succeed and in which every
Validate pass stores a verdict with `valid = false`, the engine with budget
`N ≥ 1` executes ExtractIntent exactly `N` times (i.e. retries `N - 1`
times), reaches `iteration_count = N`, and still terminates with
`status = success`. -/
theorem c5_persistent_invalid_exact (cap : Capability) (dec : Decoder)
    (source_code source_lang target_lang : String) (N : Nat)
    (hp : ∀ s, ∃ s', parse_node cap dec s = Except.ok s')
    (he : ∀ s, ∃ s', extract_intents_node cap dec s = Except.ok s')
    (hv : ∀ s, ∃ s', validate_node cap dec s = Except.ok s' ∧
      s'.validation_result.valid = false)
    (hg : ∀ s, ∃ s', generate_node cap s = Except.ok s')
    (hN : 1 ≤ N) :
    (app_invoke cap dec (initial_state source_code source_lang target_lang N)).toOption.map
        (fun q => (q.fst.iteration_count, q.fst.status, q.snd.count Node.extract_intents))
      = some (N, "success", N) := by
  obtain ⟨s1, hparse⟩ := hp (initial_state source_code source_lang target_lang N)
  obtain ⟨pv, hs1⟩ := parse_node_ok_shape hparse
  have h1c : s1.iteration_count = 0 := by rw [hs1]; rfl
  have h1m : s1.max_iterations = N := by rw [hs1]; rfl
  obtain ⟨s', tr, hloop, hcnt', hst, hm, hcnt⟩ :=
    workflow_loop_always_invalid he hv hg (N + 1) s1
      (by rw [h1c, h1m]; omega) (by rw [h1c, h1m]; omega)
  unfold app_invoke
  have hfuel : (initial_state source_code source_lang target_lang N).max_iterations
      = N := rfl
  simp only [hparse, hfuel, hloop]
  simp only [Except.toOption, Option.map]
  rw [hcnt', h1m, hst]
  simp [List.count_cons, hcnt, h1c, h1m]

/-- C5 witness: the always-invalid decoder with budget 2 produces exactly
two extraction passes and succeeds. -/
theorem c5_persistent_invalid_exact_witness :
    (app_invoke stubCap invalidDec (initial_state "x" "R" "Python" 2)).toOption.map
        (fun q => (q.fst.iteration_count, q.fst.status, q.snd.count Node.extract_intents))
      = some (2, "success", 2) :=
  c5_persistent_invalid_exact stubCap invalidDec "x" "R" "Python" 2
    (fun s => ⟨{ s with parsed_structure := stubInvalidReply }, rfl⟩)
    (fun s => ⟨{ s with intent_graph := stubInvalidReply,
                        iteration_count := s.iteration_count + 1 }, rfl⟩)
    (fun s => ⟨{ s with validation_result := ⟨false, [], "", none⟩ }, rfl, rfl⟩)
    (fun s => ⟨{ s with generated_code := "print(1)", status := "success" }, rfl⟩)
    (by decide)

/-- C6: when the first Validate pass reports `valid = true` with no critical
issue, the run executes each node exactly once — in particular Generate
runs once and ExtractIntent is never retried — and the terminal
`iteration_count` is 1. -/
theorem c6_first_pass_valid (cap : Capability) (dec : Decoder)
    (source_code source_lang target_lang : String) (N : Nat)
    (s1 s2 s3 s4 : ConversionState)
    (h1 : parse_node cap dec (initial_state source_code source_lang target_lang N)
        = Except.ok s1)
    (h2 : extract_intents_node cap dec s1 = Except.ok s2)
    (h3 : validate_node cap dec s2 = Except.ok s3)
    (h4 : s3.validation_result.valid = true)
    (h5 : ∀ i ∈ s3.validation_result.issues, i.severity ≠ Severity.critical)
    (h6 : generate_node cap s3 = Except.ok s4) :
    app_invoke cap dec (initial_state source_code source_lang target_lang N)
      = Except.ok (s4,
          [Node.parse, Node.extract_intents, Node.validate, Node.generate]) ∧
    s4.iteration_count = 1 := by
  have hroute : should_retry s3 = "generate" := should_retry_generate_of_valid h4 h5
  have hb : (should_retry s3 == "extract_intents") = false := by
    rw [hroute]
    decide
  constructor
  · unfold app_invoke
    have hfuel : (initial_state source_code source_lang target_lang N).max_iterations
        = N := rfl
    simp only [h1, hfuel, workflow_loop_succ_eq, h2, h3, hb, Bool.false_eq_true,
      if_false, h6]
  · obtain ⟨pv, he1⟩ := parse_node_ok_shape h1
    obtain ⟨g, he2⟩ := extract_intents_node_ok_shape h2
    obtain ⟨v, -, he3⟩ := validate_node_ok_shape h3
    obtain ⟨cg, he4⟩ := generate_node_ok_shape h6
    have hc1 : s1.iteration_count = 0 := by rw [he1]; rfl
    have hc2 : s2.iteration_count = 1 := by rw [he2, hc1]
    have hc3 : s3.iteration_count = 1 := by rw [he3]; exact hc2
    rw [he4]
    exact hc3

/-- Post-Parse state of the benign stub run used to instantiate C6. -/
def c6s1 : ConversionState :=
  ⟨"x", "R", "Python", stubValidReply, Json.obj [], ⟨false, [], "", none⟩,
   "", 0, 3, "in_progress", ""⟩

/-- Post-ExtractIntent state of the benign stub run used to instantiate
C6. -/
def c6s2 : ConversionState :=
  ⟨"x", "R", "Python", stubValidReply, stubValidReply, ⟨false, [], "", none⟩,
   "", 1, 3, "in_progress", ""⟩

/-- Post-Validate state of the benign stub run used to instantiate C6. -/
def c6s3 : ConversionState :=
  ⟨"x", "R", "Python", stubValidReply, stubValidReply, ⟨true, [], "", none⟩,
   "", 1, 3, "in_progress", ""⟩

/-- C6 witness: the benign stub run executes the four nodes once each and
ends with `iteration_count = 1`. -/
theorem c6_first_pass_valid_witness :
    app_invoke stubCap stubDec (initial_state "x" "R" "Python" 3)
      = Except.ok (stubRunFinal,
          [Node.parse, Node.extract_intents, Node.validate, Node.generate]) ∧
    stubRunFinal.iteration_count = 1 :=
  c6_first_pass_valid stubCap stubDec "x" "R" "Python" 3
    c6s1 c6s2 c6s3 stubRunFinal
    rfl rfl rfl rfl (by intro i hi; simp [c6s3] at hi) rfl

/-- C7: when a Validate capability reply fails JSON decoding the stage does
not raise but substitutes the degraded verdict `valid = true, issues = []`;
and in any run whose Parse, ExtractIntent and Generate executions succeed,
whose validator capability replies, and whose validator replies all fail
JSON decoding, the run terminates with `status = success` — a malformed
Validate response alone never produces `status = failed`. -/
theorem c7_malformed_validate_degrades (cap : Capability) (dec : Decoder)
    (source_code source_lang target_lang : String) (N : Nat)
    (hp : ∀ s, ∃ s', parse_node cap dec s = Except.ok s')
    (he : ∀ s, ∃ s', extract_intents_node cap dec s = Except.ok s')
    (hg : ∀ s, ∃ s', generate_node cap s = Except.ok s')
    (hv : ∀ g p c, ∃ r, cap.validatorLLM g p c = Except.ok r)
    (hd : ∀ g p c r, cap.validatorLLM g p c = Except.ok r →
      ∃ e, dec.decodeJson r = Except.error e) :
    (∀ g p c r, cap.validatorLLM g p c = Except.ok r →
      ValidatorAgent.validate cap dec g p c = Except.ok
        ⟨true, [], "Could not parse validation response", some r⟩) ∧
    (convert_with_workflow cap dec source_code source_lang target_lang N).map
        (fun s => (s.status, s.validation_result.valid, s.validation_result.issues))
      = some ("success", true, ([] : List Issue)) := by
  have hdeg : ∀ g p c r, cap.validatorLLM g p c = Except.ok r →
      ValidatorAgent.validate cap dec g p c = Except.ok
        ⟨true, [], "Could not parse validation response", some r⟩ := by
    intro g p cc r hr
    obtain ⟨e, hde⟩ := hd g p cc r hr
    unfold ValidatorAgent.validate
    simp only [hr, hde]
  refine ⟨hdeg, ?_⟩
  obtain ⟨s1, hparse⟩ := hp (initial_state source_code source_lang target_lang N)
  obtain ⟨s2, hex⟩ := he s1
  obtain ⟨r, hvr⟩ := hv s2.intent_graph s2.parsed_structure s2.source_code
  have hvag := hdeg s2.intent_graph s2.parsed_structure s2.source_code r hvr
  have hvalidate : validate_node cap dec s2 = Except.ok
      { s2 with validation_result :=
          ⟨true, [], "Could not parse validation response", some r⟩ } := by
    unfold validate_node
    simp only [hvag]
  obtain ⟨s4, hgen⟩ := hg { s2 with validation_result :=
      ⟨true, [], "Could not parse validation response", some r⟩ }
  obtain ⟨cg, hs4⟩ := generate_node_ok_shape hgen
  have hroute : should_retry { s2 with validation_result :=
      ⟨true, [], "Could not parse validation response", some r⟩ } = "generate" := by
    apply should_retry_generate_of_valid
    · rfl
    · intro i hi
      simp at hi
  have hb : (should_retry { s2 with validation_result :=
      ⟨true, [], "Could not parse validation response", some r⟩ }
        == "extract_intents") = false := by
    rw [hroute]
    decide
  unfold convert_with_workflow app_invoke
  have hfuel : (initial_state source_code source_lang target_lang N).max_iterations
      = N := rfl
  simp only [hparse, hfuel, workflow_loop_succ_eq, hex, hvalidate, hb,
    Bool.false_eq_true, if_false, hgen]
  simp only [Option.map]
  rw [hs4]

/-- C7 witness: the degraded verdict and the successful end-to-end run on the
stub capability with a decoder that never parses (Parse and ExtractIntent
then succeed through their own fallback dictionaries). -/
theorem c7_malformed_validate_degrades_witness :
    ValidatorAgent.validate stubCap noParseDec (Json.obj []) (Json.obj []) "x"
      = Except.ok ⟨true, [], "Could not parse validation response", some "stub"⟩ ∧
    (convert_with_workflow stubCap noParseDec "x" "R" "Python" 3).map
        (fun s => (s.status, s.validation_result.valid, s.validation_result.issues))
      = some ("success", true, ([] : List Issue)) :=
  ⟨(c7_malformed_validate_degrades stubCap noParseDec "x" "R" "Python" 3
      (fun s => ⟨{ s with parsed_structure := noParseParsedFallback }, rfl⟩)
      (fun s => ⟨{ s with
          intent_graph := noParseIntentFallback,
          iteration_count := s.iteration_count + 1 }, rfl⟩)
      (fun s => ⟨{ s with generated_code := "print(1)", status := "success" }, rfl⟩)
      (fun _ _ _ => ⟨"stub", rfl⟩)
      (fun _ _ _ _ _ => ⟨"Expecting value: line 1 column 1 (char 0)", rfl⟩)).1
      (Json.obj []) (Json.obj []) "x" "stub" rfl,
   (c7_malformed_validate_degrades stubCap noParseDec "x" "R" "Python" 3
      (fun s => ⟨{ s with parsed_structure := noParseParsedFallback }, rfl⟩)
      (fun s => ⟨{ s with
          intent_graph := noParseIntentFallback,
          iteration_count := s.iteration_count + 1 }, rfl⟩)
      (fun s => ⟨{ s with generated_code := "print(1)", status := "success" }, rfl⟩)
      (fun _ _ _ => ⟨"stub", rfl⟩)
      (fun _ _ _ _ _ => ⟨"Expecting value: line 1 column 1 (char 0)", rfl⟩)).2⟩

/-- C8: ExtractIntent is the only node that changes the iteration counter,
and it adds exactly 1; Parse writes only `parsed_structure`, Validate
writes only `validation_result`, and Generate writes only
`generated_code`/`status` — none of them touches the counter. -/
theorem c8_counter_frame (cap : Capability) (dec : Decoder)
    (s s' : ConversionState) :
    (extract_intents_node cap dec s = Except.ok s' →
      s' = { s with intent_graph := s'.intent_graph,
                    iteration_count := s.iteration_count + 1 }) ∧
    (parse_node cap dec s = Except.ok s' →
      s' = { s with parsed_structure := s'.parsed_structure }) ∧
    (validate_node cap dec s = Except.ok s' →
      s' = { s with validation_result := s'.validation_result }) ∧
    (generate_node cap s = Except.ok s' →
      s' = { s with generated_code := s'.generated_code, status := "success" } ∧
        s'.iteration_count = s.iteration_count) := by
  refine ⟨?_, ?_, ?_, ?_⟩
  · intro h
    obtain ⟨g, hg⟩ := extract_intents_node_ok_shape h
    rw [hg]
  · intro h
    obtain ⟨p, hp⟩ := parse_node_ok_shape h
    rw [hp]
  · intro h
    obtain ⟨v, -, hv⟩ := validate_node_ok_shape h
    rw [hv]
  · intro h
    obtain ⟨cg, hc⟩ := generate_node_ok_shape h
    rw [hc]
    exact ⟨rfl, rfl⟩

/-- C8 witness: the frame conditions instantiated on concrete executions of
each node of the benign stub run. -/
theorem c8_counter_frame_witness :
    (c6s2 = { c6s1 with
        intent_graph := c6s2.intent_graph,
        iteration_count := c6s1.iteration_count + 1 }) ∧
    (c6s1 = { initial_state "x" "R" "Python" 3 with
        parsed_structure := c6s1.parsed_structure }) ∧
    (c6s3 = { c6s2 with validation_result := c6s3.validation_result }) ∧
    (stubRunFinal = { c6s3 with
        generated_code := stubRunFinal.generated_code,
        status := "success" } ∧
      stubRunFinal.iteration_count = c6s3.iteration_count) :=
  ⟨(c8_counter_frame stubCap stubDec c6s1 c6s2).1 rfl,
   (c8_counter_frame stubCap stubDec (initial_state "x" "R" "Python" 3)
      c6s1).2.1 rfl,
   (c8_counter_frame stubCap stubDec c6s2 c6s3).2.2.1 rfl,
   (c8_counter_frame stubCap stubDec c6s3 stubRunFinal).2.2.2 rfl⟩

/-- C3 witness: on a concrete invalid verdict with remaining budget the
decision is to retry. -/
theorem c3_should_retry_decision_witness :
    should_retry c6s2 = "extract_intents" :=
  (c3_should_retry_decision c6s2).1.mpr ⟨Or.inl (by decide), by decide⟩

end CodeConverter
